import Mathlib

/-!
Verification of the e-commerce scraper in `app/parse.py` against its
natural-language specification.

The Python source is shallowly embedded below:

* pure string manipulation (`str.replace`, `str.strip`, `str.split`,
  `float(...)`, `int(...)`) is modelled by computable functions over
  `List Char` / `String`; `float` and `int` are modelled on plain decimal
  literals (optional sign, digits, optional fractional part), which covers
  every price / review-count shape the site and the spec discuss;
* a BeautifulSoup product fragment is modelled by the record of query
  results `parse_single_product` actually reads (`ProductSoup`);
* fallible extraction returns `Except ParseError`;
* the Selenium driver is modelled by oracles: `more_button` outcomes for
  the load-more loop, and per-category scrape outcomes for the full run;
* the file system is a map from path to optional CSV row list.
-/

/-- A fatal content-shape failure (missing element, or a field that could
not be converted to its numeric type).  In the Python source this is a
`TypeError` / `AttributeError` / `ValueError` escaping `parse_single_product`;
the spec groups them all as `ParseError`. -/
structure ParseError where
  msg : String
deriving DecidableEq, Repr

/-- The `Product` dataclass of `app/parse.py` (lines 32-38).
`price` is modelled as `Rat` (Python `float` on the decimal literals
involved), `num_of_reviews` as `Int` (Python `int`). -/
structure Product where
  title : String
  description : String
  price : Rat
  rating : Nat
  num_of_reviews : Int
deriving DecidableEq, Repr

/-! ### Python string primitives -/

/-- Whitespace as stripped by Python `str.strip()` (restricted to the
ASCII whitespace actually reachable here). -/
def isPySpace (c : Char) : Bool :=
  c.isWhitespace

/-- Strip leading and trailing whitespace from a character list
(Python `str.strip()`). -/
def stripList (l : List Char) : List Char :=
  ((l.dropWhile isPySpace).reverse.dropWhile isPySpace).reverse

/-- Python `str.strip()`. -/
def pyStrip (s : String) : String :=
  String.mk (stripList s.toList)

/-- Value of a digit list, most significant first. -/
def digitsVal (l : List Char) : Nat :=
  l.foldl (fun a c => a * 10 + (c.toNat - 48)) 0

/-- Parse a nonempty all-digit list. -/
def parseDigits (l : List Char) : Option Nat :=
  if l ≠ [] ∧ l.all Char.isDigit then some (digitsVal l) else none

/-- Optional leading sign of a Python numeric literal: the negativity
flag and the remaining characters. -/
def pySign (l : List Char) : Bool × List Char :=
  match l with
  | [] => (false, [])
  | c :: r =>
      if c = '-' then (true, r)
      else if c = '+' then (false, r)
      else (false, c :: r)

/-- Magnitude of a Python `float` literal after the sign: digits with at
most one decimal point and at least one digit overall.  (Exponents /
`inf` / `nan` / underscores are not reachable from the site's price
strings and are not modelled.) -/
def pyFloatMag (l : List Char) : Option Rat :=
  let ip := l.takeWhile Char.isDigit
  match l.dropWhile Char.isDigit with
  | [] => if ip = [] then none else some (digitsVal ip)
  | c :: fr =>
      if c = '.' ∧ fr.all Char.isDigit ∧ ¬(ip = [] ∧ fr = []) then
        some ((digitsVal ip : Rat) + (digitsVal fr : Rat) / (10 : Rat) ^ fr.length)
      else none

/-- Python `float(...)` on an already-stripped character list. -/
def pyFloatAux (l : List Char) : Option Rat :=
  let s := pySign l
  (pyFloatMag s.2).map (fun m => if s.1 then -m else m)

/-- Python `float(s)` (which itself strips surrounding whitespace);
`none` models a raised `ValueError`. -/
def pyFloat (s : String) : Option Rat :=
  pyFloatAux (stripList s.toList)

/-- Python `int(...)` on an already-stripped character list: optional
sign, then a nonempty digit list. -/
def pyIntAux (l : List Char) : Option Int :=
  let s := pySign l
  (parseDigits s.2).map (fun n => if s.1 then -(n : Int) else (n : Int))

/-- Python `int(s)` (which itself strips surrounding whitespace);
`none` models a raised `ValueError`. -/
def pyInt (s : String) : Option Int :=
  pyIntAux (stripList s.toList)

/-- Python `s.replace("$", "")`: every `'$'` is removed, wherever it
occurs. -/
def removeDollars (s : String) : String :=
  String.mk (s.toList.filter (fun c => c ≠ '$'))

/-- Python `s.split(" ")[0]`: splitting on the single-space separator
keeps empty fields, so the first field is exactly the prefix of `s`
before the first `' '` (the whole of `s` when it has no space). -/
def firstSpaceToken (s : String) : String :=
  String.mk (s.toList.takeWhile (fun c => c ≠ ' '))

/-- The non-breaking-space character `"\xa0"` of `app/parse.py` line 44. -/
def nbsp : Char := '\u00A0'

/-- Lines 43-44: `description.replace("\xa0", " ").strip()` (a
single-character replace is a map over the characters). -/
def normalizeDescription (d : String) : String :=
  pyStrip (String.mk (d.toList.map (fun c => if c = nbsp then ' ' else c)))

/-! ### Item extractor -/

/-- The query results `parse_single_product` reads from one
`.thumbnail` fragment: `select_one(".title")["title"]`,
`select_one(".description").text`, `select_one(".price").text`,
`len(select("p > .ws-icon-star"))`, `select_one(".review-count").text`.
An absent element (or absent attribute) is `none`. -/
structure ProductSoup where
  titleAttr : Option String
  descriptionText : Option String
  priceText : Option String
  starIcons : Nat
  reviewText : Option String
deriving DecidableEq, Repr

/-- A rendered page: its `.thumbnail` fragments in document order. -/
structure PageSoup where
  thumbnails : List ProductSoup
deriving DecidableEq, Repr

def missingTitleError : ParseError := ⟨"title element or attribute missing"⟩
def missingDescriptionError : ParseError := ⟨"description element missing"⟩
def missingPriceError : ParseError := ⟨"price element missing"⟩
def missingReviewError : ParseError := ⟨"review-count element missing"⟩
def priceValueError : ParseError := ⟨"could not convert string to float"⟩
def reviewValueError : ParseError := ⟨"invalid literal for int"⟩

def orFail (o : Option α) (e : ParseError) : Except ParseError α :=
  match o with
  | some a => .ok a
  | none => .error e

deriving instance DecidableEq for Except

/-- Line 46: `float(price.replace("$", "").strip())`. -/
def extract_price (t : String) : Option Rat :=
  pyFloat (pyStrip (removeDollars t))

/-- Line 49: `int(num_of_reviews.split(" ")[0].strip())`. -/
def extract_reviews (t : String) : Option Int :=
  pyInt (pyStrip (firstSpaceToken t))

/-- `parse_single_product` (lines 41-56), field computations in source
order; any failure aborts the item. -/
def parse_single_product (s : ProductSoup) : Except ParseError Product := do
  let title ← orFail s.titleAttr missingTitleError
  let dRaw ← orFail s.descriptionText missingDescriptionError
  let description := normalizeDescription dRaw
  let pRaw ← orFail s.priceText missingPriceError
  let price ← orFail (extract_price pRaw) priceValueError
  let rating := s.starIcons
  let rRaw ← orFail s.reviewText missingReviewError
  let num_of_reviews ← orFail (extract_reviews rRaw) reviewValueError
  pure ⟨title, description, price, rating, num_of_reviews⟩

/-- `parse_product_page` (lines 59-64): apply the item extractor to
every `.thumbnail` fragment in document order; the list comprehension
propagates the first failure and yields no list at all in that case. -/
def parse_product_page (page : PageSoup) : Except ParseError (List Product) :=
  page.thumbnails.mapM parse_single_product

/-! ### Pagination driver -/

/-- Outcome of one `more_button` attempt against the live page
(lines 83-99): the clickable-wait, the click and the post-click
thumbnail-presence wait all succeeded (`clicked`), a `TimeoutException`
was raised (`timeout`: the control is absent / never clickable in time),
or some other exception was raised (`fault`: e.g. not interactable). -/
inductive MoreAttempt where
  | clicked
  | timeout
  | fault
deriving DecidableEq, Repr

/-- `more_button` returns `True` exactly on the fully successful
click-and-wait path; both `except` branches log and return `False`. -/
def more_button (a : MoreAttempt) : Bool :=
  match a with
  | .clicked => true
  | .timeout => false
  | .fault => false

/-- The `while more_button(driver): pass` loop of `scrape_products`
(lines 108-109).  The driver is an oracle giving the outcome of the
`k`-th attempt; `fuel` bounds the number of loop iterations we inspect.
`some k` means the loop terminated within the fuel, having performed
exactly `k` successful click-and-wait expansions starting from attempt
index `start`; `none` means it was still running when the fuel ran out. -/
def expandLoop (attempts : Nat → MoreAttempt) : Nat → Nat → Option Nat
  | 0, _ => none
  | fuel + 1, start =>
      if more_button (attempts start) then
        expandLoop attempts fuel (start + 1)
      else
        some start

/-! ### Output sink -/

/-- One CSV row, as the list of its cells. -/
abbrev Row := List String

/-- The header row written by `save_products_to_csv` (lines 130-132). -/
def csvHeader : Row :=
  ["title", "description", "price", "rating", "num_of_reviews"]

/-- The data row written for one product (lines 134-138).  Numeric cells
are rendered with `toString`; the claims under verification only depend
on row identity and counts, not on Python's exact float formatting. -/
def productRow (p : Product) : Row :=
  [p.title, p.description, toString p.price, toString p.rating,
   toString p.num_of_reviews]

/-- `save_products_to_csv` (lines 117-138) acting on the destination
file's state: `none` = the file does not exist, `some rows` = it exists
with the given rows (a CSV file is empty, `st_size == 0`, exactly when
it contains no rows).  Opening with mode `"a"` creates a missing file
and appends; the header is written when the file did not exist or was
empty.  Returns the file's new contents. -/
def save_products_to_csv (products : List Product) (file : Option (List Row)) :
    List Row :=
  let file_exists : Bool := file.isSome
  let is_file_empty : Bool :=
    match file with
    | some rows => rows.isEmpty
    | none => true
  let existing : List Row := file.getD []
  let afterHeader : List Row :=
    if !file_exists || is_file_empty then existing ++ [csvHeader] else existing
  afterHeader ++ products.map productRow

/-! ### Catalog runner -/

/-- The file system seen by the runner: destination name to optional
contents. -/
def FileSys : Type := String → Option (List Row)

/-- Write (create or replace) one file. -/
def setFile (fs : FileSys) (name : String) (rows : List Row) : FileSys :=
  fun n => if n = name then some rows else fs n

/-- Observable events of a full run, for the resource claims: each
completed `save_products_to_csv` call, and `driver.quit()`. -/
inductive Event where
  | write (name : String) (rows : List Row)
  | quit
deriving Repr

def isQuitEvent : Event → Bool
  | .quit => true
  | .write _ _ => false

/-- The six destination file names, in the order `get_all_products`
writes them (lines 156-161). -/
def categoryFiles : List String :=
  ["home.csv", "computers.csv", "laptops.csv", "tablets.csv",
   "phones.csv", "touch.csv"]

/-- The `try` body of `get_all_products` (lines 148-161): the six
`scrape_products` calls, in category order, all happen before the first
`save_products_to_csv` call.  The scrape oracle gives each category
job's extraction outcome.  On success, returns the final file system
together with the six writes performed (name and full new contents, in
order); on a `ParseError` the body aborts with no write performed. -/
def runBody (scrape : Fin 6 → Except ParseError (List Product)) (fs : FileSys) :
    Except ParseError (FileSys × List (String × List Row)) := do
  let products_home ← scrape 0
  let products_computers ← scrape 1
  let products_laptops ← scrape 2
  let products_tablets ← scrape 3
  let products_phones ← scrape 4
  let products_touch ← scrape 5
  let c0 := save_products_to_csv products_home (fs "home.csv")
  let fs0 := setFile fs "home.csv" c0
  let c1 := save_products_to_csv products_computers (fs0 "computers.csv")
  let fs1 := setFile fs0 "computers.csv" c1
  let c2 := save_products_to_csv products_laptops (fs1 "laptops.csv")
  let fs2 := setFile fs1 "laptops.csv" c2
  let c3 := save_products_to_csv products_tablets (fs2 "tablets.csv")
  let fs3 := setFile fs2 "tablets.csv" c3
  let c4 := save_products_to_csv products_phones (fs3 "phones.csv")
  let fs4 := setFile fs3 "phones.csv" c4
  let c5 := save_products_to_csv products_touch (fs4 "touch.csv")
  let fs5 := setFile fs4 "touch.csv" c5
  pure (fs5, [("home.csv", c0), ("computers.csv", c1), ("laptops.csv", c2),
              ("tablets.csv", c3), ("phones.csv", c4), ("touch.csv", c5)])

/-- `get_all_products` (lines 141-163): run the body under
`try ... finally driver.quit()`.  Returns the event trace (writes then
the quit), the run's outcome, and the resulting file system. -/
def get_all_products (scrape : Fin 6 → Except ParseError (List Product))
    (fs : FileSys) : List Event × Except ParseError Unit × FileSys :=
  match runBody scrape fs with
  | .ok (fsFinal, writes) =>
      (writes.map (fun w => Event.write w.1 w.2) ++ [Event.quit], .ok (), fsFinal)
  | .error e => ([Event.quit], .error e, fs)

/-! ### Spec-side readings (for the refinement claims)

These definitions follow the words of the specification, not the source;
they exist only to be compared with the source-derived definitions
above. -/

/-- Modelled from the spec (C6 reading): strip surrounding whitespace
and one leading currency symbol, then parse the remainder as a float. -/
def specStripLeadingDollar (s : String) : String :=
  match (pyStrip s).toList with
  | '$' :: rest => String.mk rest
  | l => String.mk l

/-- Modelled from the spec (C6 reading): the price accepted by the Item
Extractor according to the claim's words. -/
def specPrice (s : String) : Option Rat :=
  pyFloat (pyStrip (specStripLeadingDollar s))

/-- Modelled from the spec (C7 reading): split the review text on
whitespace (any whitespace separator) and take the first token. -/
def specFirstWsToken (s : String) : String :=
  String.mk ((s.toList.dropWhile isPySpace).takeWhile (fun c => !isPySpace c))

/-- Modelled from the spec (C7 reading): the review count accepted by
the Item Extractor according to the claim's words. -/
def specReviewCount (s : String) : Option Int :=
  pyInt (specFirstWsToken s)

/-! ### Generic list lemmas -/

theorem dropWhile_head?_false {α : Type} {p : α → Bool} {l : List α} {c : α}
    (h : (l.dropWhile p).head? = some c) : p c = false := by
  induction l with
  | nil => simp at h
  | cons a t ih =>
      rw [List.dropWhile_cons] at h
      by_cases hp : p a = true
      · rw [if_pos hp] at h
        exact ih h
      · rw [if_neg hp] at h
        simp at h
        subst h
        simpa using hp

theorem dropWhile_eq_self_of_head {α : Type} {p : α → Bool} {l : List α}
    (h : ∀ c, l.head? = some c → p c = false) : l.dropWhile p = l := by
  cases l with
  | nil => simp
  | cons a t =>
      rw [List.dropWhile_cons, if_neg]
      simp [h a rfl]

theorem mem_dropWhile_of_mem {α : Type} {p : α → Bool} {l : List α} {c : α}
    (hc : c ∈ l) (hpc : p c = false) : c ∈ l.dropWhile p := by
  induction l with
  | nil => simp at hc
  | cons a t ih =>
      rw [List.dropWhile_cons]
      by_cases hp : p a = true
      · rw [if_pos hp]
        rcases List.mem_cons.mp hc with h | h
        · subst h
          rw [hp] at hpc
          cases hpc
        · exact ih h
      · rw [if_neg hp]
        exact hc

theorem getLast?_dropWhile {α : Type} {p : α → Bool} {l : List α}
    (h : l.dropWhile p ≠ []) : (l.dropWhile p).getLast? = l.getLast? := by
  conv_rhs => rw [← List.takeWhile_append_dropWhile p l]
  rw [List.getLast?_append_of_ne_nil _ h]

theorem takeWhile_append_of_all {α : Type} {p : α → Bool} {l₁ l₂ : List α}
    (h : ∀ x ∈ l₁, p x = true) :
    (l₁ ++ l₂).takeWhile p = l₁ ++ l₂.takeWhile p := by
  induction l₁ with
  | nil => simp
  | cons a t ih =>
      rw [List.cons_append, List.takeWhile_cons, if_pos (h a (by simp)),
        ih (fun x hx => h x (by simp [hx])), List.cons_append]

/-! ### Facts about stripping -/

theorem stripList_head?_false {l : List Char} {c : Char}
    (h : (stripList l).head? = some c) : isPySpace c = false := by
  unfold stripList at h
  rw [List.head?_reverse] at h
  by_cases hemp : ((l.dropWhile isPySpace).reverse.dropWhile isPySpace) = []
  · rw [hemp] at h
    simp at h
  · rw [getLast?_dropWhile hemp, List.getLast?_reverse] at h
    exact dropWhile_head?_false (l := l) h

theorem stripList_getLast?_false {l : List Char} {c : Char}
    (h : (stripList l).getLast? = some c) : isPySpace c = false := by
  unfold stripList at h
  rw [List.getLast?_reverse] at h
  exact dropWhile_head?_false h

theorem stripList_idem (l : List Char) : stripList (stripList l) = stripList l := by
  have h1 : (stripList l).dropWhile isPySpace = stripList l :=
    dropWhile_eq_self_of_head (fun c hc => stripList_head?_false hc)
  have h2 : (stripList l).reverse.dropWhile isPySpace = (stripList l).reverse :=
    dropWhile_eq_self_of_head (fun c hc => by
      rw [List.head?_reverse] at hc
      exact stripList_getLast?_false hc)
  show ((((stripList l).dropWhile isPySpace).reverse.dropWhile isPySpace)).reverse
      = stripList l
  rw [h1, h2, List.reverse_reverse]

theorem mem_stripList_of_mem {l : List Char} {c : Char}
    (hc : c ∈ l) (hsp : isPySpace c = false) : c ∈ stripList l := by
  unfold stripList
  rw [List.mem_reverse]
  exact mem_dropWhile_of_mem (List.mem_reverse.mpr (mem_dropWhile_of_mem hc hsp)) hsp

theorem pyFloat_pyStrip (s : String) : pyFloat (pyStrip s) = pyFloat s := by
  show pyFloatAux (stripList (stripList s.toList)) = pyFloatAux (stripList s.toList)
  rw [stripList_idem]

theorem pyInt_pyStrip (s : String) : pyInt (pyStrip s) = pyInt s := by
  show pyIntAux (stripList (stripList s.toList)) = pyIntAux (stripList s.toList)
  rw [stripList_idem]

/-! ### Characters of a successfully parsed float -/

theorem pyFloatMag_not_dollar {l : List Char} {q : Rat}
    (h : pyFloatMag l = some q) (hmem : '$' ∈ l) : False := by
  unfold pyFloatMag at h
  rw [← List.takeWhile_append_dropWhile Char.isDigit l] at hmem
  rcases List.mem_append.mp hmem with hip | hrest
  · have := List.mem_takeWhile_imp hip
    simp at this
  · cases hd : l.dropWhile Char.isDigit with
    | nil => rw [hd] at hrest; simp at hrest
    | cons c fr =>
        rw [hd] at h hrest
        dsimp only at h
        split at h
        · next hcond =>
            rcases hcond with ⟨hc, hfr, _⟩
            rcases List.mem_cons.mp hrest with h1 | h1
            · rw [hc] at h1
              simp at h1
            · have := List.all_eq_true.mp hfr _ h1
              simp at this
        · cases h

theorem pySign_mem_snd {l : List Char} {c : Char}
    (hc : c ∈ l) (hminus : c ≠ '-') (hplus : c ≠ '+') : c ∈ (pySign l).2 := by
  cases l with
  | nil => simp at hc
  | cons a r =>
      show c ∈ (if a = '-' then (true, r)
        else if a = '+' then ((false : Bool), r) else (false, a :: r)).2
      by_cases ha : a = '-'
      · rw [if_pos ha]
        rcases List.mem_cons.mp hc with h1 | h1
        · exact absurd (h1.trans ha) hminus
        · exact h1
      · rw [if_neg ha]
        by_cases hb : a = '+'
        · rw [if_pos hb]
          rcases List.mem_cons.mp hc with h1 | h1
          · exact absurd (h1.trans hb) hplus
          · exact h1
        · rw [if_neg hb]
          exact hc

theorem pyFloat_not_dollar {P : String} {q : Rat}
    (h : pyFloat P = some q) : '$' ∉ P.toList := by
  intro hmem
  have h1 : '$' ∈ stripList P.toList := mem_stripList_of_mem hmem (by decide)
  have h2 : '$' ∈ (pySign (stripList P.toList)).2 :=
    pySign_mem_snd h1 (by decide) (by decide)
  cases hm : pyFloatMag (pySign (stripList P.toList)).2 with
  | none =>
      have hnone : pyFloat P = none := by
        simp only [pyFloat, pyFloatAux, hm, Option.map_none']
      rw [hnone] at h
      cases h
  | some m => exact pyFloatMag_not_dollar hm h2

/-! ### Extractor lemmas -/

theorem extract_price_leading_dollar {P : String} {p : Rat}
    (hP : pyFloat P = some p) : extract_price ("$" ++ P) = some p := by
  have hd : '$' ∉ P.toList := pyFloat_not_dollar hP
  have hfilter : P.toList.filter (fun c => c ≠ '$') = P.toList :=
    List.filter_eq_self.mpr (fun a ha => by
      simp only [ne_eq, decide_eq_true_eq]
      intro hEq
      exact hd (hEq ▸ ha))
  have hrd : removeDollars ("$" ++ P) = String.mk P.toList := by
    unfold removeDollars
    have hl : ("$" ++ P).toList = '$' :: P.toList := by
      show ("$" ++ P).data = '$' :: P.data
      rw [String.data_append]
      rfl
    rw [hl, List.filter_cons, if_neg (by decide), hfilter]
  show pyFloat (pyStrip (removeDollars ("$" ++ P))) = some p
  rw [hrd]
  show pyFloatAux (stripList (stripList P.toList)) = some p
  rw [stripList_idem]
  exact hP

theorem extract_reviews_append {R : String} {n : Int}
    (hR : pyInt R = some n) (hsp : ' ' ∉ R.toList) :
    extract_reviews (R ++ " reviews") = some n := by
  have htok : firstSpaceToken (R ++ " reviews") = String.mk R.toList := by
    unfold firstSpaceToken
    have hl : (R ++ " reviews").toList = R.toList ++ (' ' :: "reviews".toList) := by
      show (R ++ " reviews").data = R.data ++ (' ' :: "reviews".data)
      rw [String.data_append]
    rw [hl, takeWhile_append_of_all (fun x hx => by
      simp only [ne_eq, decide_eq_true_eq]
      intro hEq
      exact hsp (hEq ▸ hx))]
    rw [List.takeWhile_cons, if_neg (by decide), List.append_nil]
  show pyInt (pyStrip (firstSpaceToken (R ++ " reviews"))) = some n
  rw [htok]
  show pyIntAux (stripList (stripList R.toList)) = some n
  rw [stripList_idem]
  exact hR

/-! ### Page-extractor lemmas -/

theorem mapM_ok_of_forall₂ {l : List ProductSoup} {ps : List Product}
    (h : List.Forall₂ (fun s p => parse_single_product s = Except.ok p) l ps) :
    l.mapM parse_single_product = Except.ok ps := by
  induction h with
  | nil => rfl
  | cons hsp _ ih =>
      rw [List.mapM_cons, hsp, ih]
      rfl

theorem mapM_error_of_mem {l : List ProductSoup} {t : ProductSoup} {e : ParseError}
    (ht : t ∈ l) (he : parse_single_product t = Except.error e) :
    ∃ e2, l.mapM parse_single_product = Except.error e2 := by
  induction l with
  | nil => simp at ht
  | cons a r ih =>
      rw [List.mapM_cons]
      cases ha : parse_single_product a with
      | error e3 => exact ⟨e3, rfl⟩
      | ok p =>
          rcases List.mem_cons.mp ht with h1 | h1
          · subst h1
            rw [ha] at he
            cases he
          · obtain ⟨e2, h2⟩ := ih h1
            refine ⟨e2, ?_⟩
            rw [h2]
            rfl

/-! ### Pagination-loop lemma -/

theorem expandLoop_exact {attempts : Nat → MoreAttempt} {n : Nat}
    (h : ∀ k, attempts k = MoreAttempt.clicked ↔ k < n) :
    ∀ fuel start, start ≤ n → n - start < fuel →
      expandLoop attempts fuel start = some n := by
  intro fuel
  induction fuel with
  | zero =>
      intro start _ hf
      omega
  | succ f ih =>
      intro start hs hf
      rw [expandLoop]
      by_cases hlt : start < n
      · rw [if_pos (show more_button (attempts start) = true by
          rw [(h start).mpr hlt]; rfl)]
        exact ih (start + 1) (by omega) (by omega)
      · have hse : start = n := by omega
        subst hse
        rw [if_neg ?_]
        · cases ha : attempts start with
          | clicked => exact absurd ((h start).mp ha) (by omega)
          | timeout => decide
          | fault => decide

/-! ### Runner lemmas -/

theorem error_bind {ε α β : Type} (e : ε) (f : α → Except ε β) :
    (Except.error e >>= f : Except ε β) = Except.error e := rfl

theorem ok_bind {ε α β : Type} (a : α) (f : α → Except ε β) :
    (Except.ok a >>= f : Except ε β) = f a := rfl

theorem runBody_error_of_scrape_error {scrape : Fin 6 → Except ParseError (List Product)}
    (fs : FileSys) (hex : ∃ i e, scrape i = Except.error e) :
    ∃ e2, runBody scrape fs = Except.error e2 := by
  obtain ⟨i, e, hie⟩ := hex
  cases h0 : scrape 0 with
  | error e0 => exact ⟨e0, by simp [runBody, h0, error_bind, ok_bind]⟩
  | ok ps0 =>
  cases h1 : scrape 1 with
  | error e1 => exact ⟨e1, by simp [runBody, h0, h1, error_bind, ok_bind]⟩
  | ok ps1 =>
  cases h2 : scrape 2 with
  | error e2 => exact ⟨e2, by simp [runBody, h0, h1, h2, error_bind, ok_bind]⟩
  | ok ps2 =>
  cases h3 : scrape 3 with
  | error e3 => exact ⟨e3, by simp [runBody, h0, h1, h2, h3, error_bind, ok_bind]⟩
  | ok ps3 =>
  cases h4 : scrape 4 with
  | error e4 => exact ⟨e4, by simp [runBody, h0, h1, h2, h3, h4, error_bind, ok_bind]⟩
  | ok ps4 =>
  cases h5 : scrape 5 with
  | error e5 => exact ⟨e5, by simp [runBody, h0, h1, h2, h3, h4, h5, error_bind, ok_bind]⟩
  | ok ps5 =>
  exfalso
  fin_cases i <;> simp_all

/-! ### Concrete instances used by witnesses and counterexamples -/

/-- The ParseError raised by the failing category in the C1 scenario. -/
def sampleError : ParseError := ⟨"sample parse failure"⟩

/-- Scrape oracle where job 1 (home) succeeds with an empty listing and
every later job raises; jobs are indexed 0-5. -/
def scrapeFailsAtSecond : Fin 6 → Except ParseError (List Product) :=
  fun i => if i.val = 0 then .ok [] else .error sampleError

/-- The empty file system: no destination exists before the run. -/
def emptyFS : FileSys := fun _ => none

/-! ### Claim theorems -/

/-- C3: given a load-more control that succeeds on exactly the first `n`
attempts and then reports absent/unclickable, the
`while more_button(driver)` loop of `scrape_products` performs exactly
`n` successful click-and-wait expansions and then terminates in the
exhausted state (`some n`) — never fewer, and never continuing past the
first reported absence — for any inspection fuel larger than `n`. -/
theorem pagination_driver_exact_expansions
    (attempts : Nat → MoreAttempt) (n fuel : Nat)
    (h : ∀ k, attempts k = MoreAttempt.clicked ↔ k < n) (hfuel : n < fuel) :
    expandLoop attempts fuel 0 = some n :=
  expandLoop_exact h fuel 0 (Nat.zero_le n) (by omega)

theorem pagination_driver_exact_expansions_witness :
    expandLoop (fun k => if k < 3 then MoreAttempt.clicked else MoreAttempt.timeout)
      10 0 = some 3 :=
  pagination_driver_exact_expansions _ 3 10
    (fun k => by by_cases hk : k < 3 <;> simp [hk]) (by omega)

/-- C4: `save_products_to_csv` writes the five-column header exactly
when the destination did not exist or existed empty; on a nonempty
destination it appends without a header; hence two sequential
invocations on a fresh destination with the same records produce one
header row followed by the data rows of both invocations, never two
header rows. -/
theorem output_sink_header_once :
    (∀ (ps : List Product) (file : Option (List Row)),
       file = none ∨ file = some [] →
         save_products_to_csv ps file = csvHeader :: ps.map productRow)
    ∧ (∀ (ps : List Product) (c : List Row), c ≠ [] →
         save_products_to_csv ps (some c) = c ++ ps.map productRow)
    ∧ (∀ ps : List Product,
         save_products_to_csv ps (some (save_products_to_csv ps none))
           = csvHeader :: (ps.map productRow ++ ps.map productRow)) := by
  refine ⟨?_, ?_, ?_⟩
  · rintro ps file (rfl | rfl) <;> simp [save_products_to_csv]
  · intro ps c hc
    cases c with
    | nil => exact absurd rfl hc
    | cons a t => simp [save_products_to_csv]
  · intro ps
    have h1 : save_products_to_csv ps none = csvHeader :: ps.map productRow := by
      simp [save_products_to_csv]
    rw [h1]
    simp [save_products_to_csv]

theorem output_sink_header_once_witness :
    save_products_to_csv [] none = [csvHeader] ∧
    save_products_to_csv [] (some [csvHeader]) = [csvHeader] :=
  ⟨output_sink_header_once.1 [] none (Or.inl rfl),
   output_sink_header_once.2.1 [] [csvHeader] (by simp)⟩

/-- C10: invoking the Output Sink with an empty product sequence is
total (the model is a function, never an error) and still writes the
header when the destination is missing or empty, so a category yielding
zero products produces a file that is exactly the header row and no data
rows. -/
theorem output_sink_empty_products (file : Option (List Row))
    (h : file = none ∨ file = some []) :
    save_products_to_csv [] file = [csvHeader] := by
  rcases h with rfl | rfl <;> simp [save_products_to_csv]

theorem output_sink_empty_products_witness :
    save_products_to_csv [] none = [csvHeader] :=
  output_sink_empty_products none (Or.inl rfl)

/-- C9: the single browser session is released exactly once on every
exit path of `get_all_products`: the event trace contains exactly one
`quit`, and it is the final event — both when all six category jobs
succeed and when any job aborts with an error. -/
theorem browser_quit_exactly_once
    (scrape : Fin 6 → Except ParseError (List Product)) (fs : FileSys) :
    ((get_all_products scrape fs).1.countP isQuitEvent = 1)
    ∧ (get_all_products scrape fs).1.getLast? = some Event.quit := by
  unfold get_all_products
  cases h : runBody scrape fs with
  | error e => exact ⟨rfl, rfl⟩
  | ok r =>
      constructor
      · rw [List.countP_append, List.countP_map]
        simp [isQuitEvent, Function.comp, List.countP_eq_zero]
      · exact List.getLast?_concat _

/-- C1 counterexample: with extraction failing in job 2 (computers), the
claim requires job 1's destination `home.csv` to have been written; in
fact the run terminates with the unhandled error and `home.csv` was
never written, because all six extractions precede the first write. -/
theorem catalog_run_counterexample :
    (get_all_products scrapeFailsAtSecond emptyFS).2.1 = .error sampleError
    ∧ (get_all_products scrapeFailsAtSecond emptyFS).2.2 "home.csv" = none := by
  constructor <;> rfl

/-- C1 (amended): if any category job's extraction raises a ParseError,
the six-category run terminates with an unhandled error and no
destination file has been written at all (the file system is unchanged
and the only event is the browser quit), because all six extractions are
performed before the first write. -/
theorem catalog_run_aborts_before_any_write
    (scrape : Fin 6 → Except ParseError (List Product)) (fs : FileSys)
    (hex : ∃ i e, scrape i = Except.error e) :
    ∃ e2, get_all_products scrape fs = ([Event.quit], .error e2, fs) := by
  obtain ⟨e2, h⟩ := runBody_error_of_scrape_error fs hex
  exact ⟨e2, by simp [get_all_products, h]⟩

theorem catalog_run_aborts_before_any_write_witness :
    ∃ e2, get_all_products scrapeFailsAtSecond emptyFS
      = ([Event.quit], .error e2, emptyFS) :=
  catalog_run_aborts_before_any_write scrapeFailsAtSecond emptyFS
    ⟨1, sampleError, rfl⟩

/-! ### Item-extractor reduction lemmas -/

theorem parse_single_product_fields {T D P R : String} {k : Nat} {p : Rat} {n : Int}
    (hp : extract_price P = some p) (hn : extract_reviews R = some n) :
    parse_single_product ⟨some T, some D, some P, k, some R⟩
      = .ok ⟨T, normalizeDescription D, p, k, n⟩ := by
  simp [parse_single_product, orFail, hp, hn, error_bind, ok_bind]

theorem parse_single_product_price_error {T D P R : String} {k : Nat}
    (hp : extract_price P = none) :
    parse_single_product ⟨some T, some D, some P, k, some R⟩
      = .error priceValueError := by
  simp [parse_single_product, orFail, hp, error_bind, ok_bind]

theorem parse_single_product_review_error {T D P R : String} {k : Nat} {p : Rat}
    (hp : extract_price P = some p) (hn : extract_reviews R = none) :
    parse_single_product ⟨some T, some D, some P, k, some R⟩
      = .error reviewValueError := by
  simp [parse_single_product, orFail, hp, hn, error_bind, ok_bind]

/-- C2: for a fragment whose title attribute is `T`, whose description
text is `D` (possibly containing non-breaking spaces), whose price text
is `"$" ++ P` with `P` numeric with value `p`, which has `k` star-icon
children, and whose review text is the numeral `R` of `n` followed by
`" reviews"`, the Item Extractor returns exactly
`Product(T, D normalized, p, k, n)` — where normalization replaces every
non-breaking space by a space and strips surrounding whitespace. -/
theorem item_extractor_correct (T D P R : String) (k : Nat) (n : Int) (p : Rat)
    (hP : pyFloat P = some p) (hR : pyInt R = some n) (hRsp : ' ' ∉ R.toList) :
    parse_single_product
        ⟨some T, some D, some ("$" ++ P), k, some (R ++ " reviews")⟩
      = .ok ⟨T, normalizeDescription D, p, k, n⟩ :=
  parse_single_product_fields (extract_price_leading_dollar hP)
    (extract_reviews_append hR hRsp)

theorem item_extractor_correct_witness :
    parse_single_product
        ⟨some "Acer Aspire 3", some "A good laptop", some "$599", 3,
         some "12 reviews"⟩
      = .ok ⟨"Acer Aspire 3", "A good laptop", (599 : Rat), 3, (12 : Int)⟩ :=
  item_extractor_correct "Acer Aspire 3" "A good laptop" "599" "12" 3 12 599
    (by decide) (by decide) (by decide)

/-- C5: if any thumbnail fragment on a rendered page is malformed (its
item extraction raises, e.g. because the price text is the non-numeric
`"$N/A"`), page extraction fails with a ParseError and emits no Product
sequence at all for that page — no prefix of successfully parsed items
is returned and no bad item is silently skipped. -/
theorem page_extraction_all_or_nothing (page : PageSoup) (t : ProductSoup)
    (e : ParseError) (ht : t ∈ page.thumbnails)
    (he : parse_single_product t = .error e) :
    (∃ e2, parse_product_page page = .error e2)
    ∧ ∀ ps, parse_product_page page ≠ .ok ps := by
  obtain ⟨e2, h2⟩ := mapM_error_of_mem ht he
  refine ⟨⟨e2, h2⟩, fun ps hps => ?_⟩
  rw [parse_product_page, h2] at hps
  cases hps

/-- A well-formed sample fragment. -/
def goodSoup : ProductSoup :=
  ⟨some "Acer Aspire 3", some "A good laptop", some "$599.00", 3,
   some "12 reviews"⟩

/-- A malformed fragment: its price text `"$N/A"` is non-numeric. -/
def badPriceSoup : ProductSoup :=
  ⟨some "Broken", some "some description", some "$N/A", 2, some "1 reviews"⟩

theorem page_extraction_all_or_nothing_witness :
    (∃ e2, parse_product_page ⟨[goodSoup, badPriceSoup]⟩ = .error e2)
    ∧ ∀ ps, parse_product_page ⟨[goodSoup, badPriceSoup]⟩ ≠ .ok ps :=
  page_extraction_all_or_nothing ⟨[goodSoup, badPriceSoup]⟩ badPriceSoup
    priceValueError (by simp) (by rfl)

/-- C8: the Page Extractor applies the Item Extractor to each
listing-thumbnail fragment in document order: whenever the fragments of
a page parse pointwise, in order, to the products `ps`, the page parses
to exactly the ordered sequence `ps`. -/
theorem page_extractor_document_order (l : List ProductSoup) (ps : List Product)
    (h : List.Forall₂ (fun s q => parse_single_product s = Except.ok q) l ps) :
    parse_product_page ⟨l⟩ = .ok ps :=
  mapM_ok_of_forall₂ h

def soupA : ProductSoup :=
  ⟨some "A", some "da", some "$1", 1, some "1 reviews"⟩
def soupB : ProductSoup :=
  ⟨some "B", some "db", some "$2", 2, some "2 reviews"⟩
def soupC : ProductSoup :=
  ⟨some "C", some "dc", some "$3", 3, some "3 reviews"⟩

theorem page_extractor_document_order_witness :
    parse_product_page ⟨[soupA, soupB, soupC]⟩ =
      .ok [⟨"A", "da", (1 : Rat), 1, 1⟩, ⟨"B", "db", (2 : Rat), 2, 2⟩,
           ⟨"C", "dc", (3 : Rat), 3, 3⟩] :=
  page_extractor_document_order [soupA, soupB, soupC] _
    (List.Forall₂.cons (by decide) (List.Forall₂.cons (by decide)
      (List.Forall₂.cons (by decide) List.Forall₂.nil)))

/-- C6 counterexample: the price text `"$5$9"` — whose remainder after
removing one leading `'$'` is the non-numeric `"5$9"` — does not fail as
the claim requires: the code removes every `'$'` occurrence, so the item
parses successfully with price 59. -/
theorem price_strip_counterexample :
    parse_single_product ⟨some "t", some "d", some "$5$9", 0, some "7 reviews"⟩
      = .ok ⟨"t", "d", (59 : Rat), 0, (7 : Int)⟩
    ∧ specPrice "$5$9" = none := by
  constructor <;> decide

/-- C6 (amended): the Item Extractor removes every `'$'` character from
the price text — wherever it occurs, not only a leading one — and strips
surrounding whitespace, then parses the remainder as a float; the item
fails with a ParseError exactly when the text with all dollar signs
removed is not numeric. -/
theorem price_removes_every_dollar (T D R t : String) (k : Nat) (n : Int)
    (hR : extract_reviews R = some n) :
    (∀ p : Rat, pyFloat (removeDollars t) = some p →
       parse_single_product ⟨some T, some D, some t, k, some R⟩
         = .ok ⟨T, normalizeDescription D, p, k, n⟩)
    ∧ (pyFloat (removeDollars t) = none →
       parse_single_product ⟨some T, some D, some t, k, some R⟩
         = .error priceValueError) := by
  have key : extract_price t = pyFloat (removeDollars t) :=
    pyFloat_pyStrip (removeDollars t)
  constructor
  · intro p hp
    exact parse_single_product_fields (key.trans hp) hR
  · intro hp
    exact parse_single_product_price_error (key.trans hp)

theorem price_removes_every_dollar_witness :
    parse_single_product ⟨some "t", some "d", some "1$0", 0, some "7 reviews"⟩
      = .ok ⟨"t", "d", (10 : Rat), 0, (7 : Int)⟩ :=
  (price_removes_every_dollar "t" "d" "7 reviews" "1$0" 0 7 (by decide)).1
    (10 : Rat) (by decide)

/-- C7 counterexample: for review text `"12\treviews"` the claim's
whitespace-split reading yields first token `"12"` and hence the count
12; the code splits on the space character only, so the whole text is a
single non-numeric token and the item fails with a ParseError. -/
theorem review_split_counterexample :
    parse_single_product
        ⟨some "t", some "d", some "$1.00", 0, some "12\treviews"⟩
      = .error reviewValueError
    ∧ specReviewCount "12\treviews" = some 12 := by
  constructor <;> rfl

/-- C7 (amended): the review text is split on the space character only
(tabs and newlines are not treated as separators); the first
space-separated field, with surrounding whitespace stripped, is parsed
as an integer, and the item fails with a ParseError exactly when that
field is not a valid integer. -/
theorem review_splits_on_space_only (T D P R : String) (k : Nat) (p : Rat)
    (hP : extract_price P = some p) :
    (∀ n : Int, pyInt (firstSpaceToken R) = some n →
       parse_single_product ⟨some T, some D, some P, k, some R⟩
         = .ok ⟨T, normalizeDescription D, p, k, n⟩)
    ∧ (pyInt (firstSpaceToken R) = none →
       parse_single_product ⟨some T, some D, some P, k, some R⟩
         = .error reviewValueError) := by
  have key : extract_reviews R = pyInt (firstSpaceToken R) :=
    pyInt_pyStrip (firstSpaceToken R)
  constructor
  · intro n hn
    exact parse_single_product_fields hP (key.trans hn)
  · intro hn
    exact parse_single_product_review_error hP (key.trans hn)

theorem review_splits_on_space_only_witness :
    parse_single_product ⟨some "t", some "d", some "$1", 0, some "12 reviews"⟩
      = .ok ⟨"t", "d", (1 : Rat), 0, (12 : Int)⟩ :=
  (review_splits_on_space_only "t" "d" "$1" "12 reviews" 0 1 (by decide)).1
    12 (by decide)
